import Mathlib

/-!
Shallow embedding of `run.py`, the build-and-launch orchestrator of the
bare-metal-blasterball repository.

Modelling choices:
* An external process invocation (`subprocess.run`) is recorded as a `Cmd`:
  its argument list and the optional `RUSTFLAGS` value added on top of the
  inherited environment (`none` means the environment is inherited unchanged,
  which is what `subprocess.run` does when no `env=` argument is passed).
* The exit codes of the external processes are not computable from the
  program, so they are an input: an `Outcomes` record holding one exit code
  per possible invocation site (each site runs at most once per process).
* `root_dir = pathlib.Path(__file__).parent` depends on where the script
  lives, so it is a `String` parameter `r` threaded to every function that
  reads the global.
* Each Python function becomes a Lean function returning the list of
  invocations it performs (in order) together with its return value.
  `run_with_bios` / `run_with_uefi` return `None` in Python, so their Lean
  versions return only the trace.
* The `__main__` block becomes `main_go`.  The script never calls
  `sys.exit` and never lets an exit code escape the `== 0` tests, so on
  normal termination the interpreter exits with status 0; `exitCode` in
  `RunOutput` records this.  `buildResult` records the integer that
  `__main__` compares against 0 (the return value of `build_with_bios` or
  `build_with_uefi`).
-/

/-- One external process invocation: the argv list and the `RUSTFLAGS`
value added to the inherited environment (`none` = environment inherited
unchanged). -/
structure Cmd where
  args : List String
  env : Option String
deriving Repr, DecidableEq

/-- Exit codes of the external processes, one per invocation site of
`run.py`.  (`qemuExit` is the exit status of the emulator; `run.py`
discards it.) -/
structure Outcomes where
  cargoExit : Int
  objcopyStripExit : Int
  objcopyBinExit : Int
  qemuExit : Int
deriving Repr, DecidableEq

/-- The resolved flag set of `run.py` (argparse: `--bios`, `--debug`,
`--build-only`, `--release`; all `store_true`, absence = `false`). -/
structure Config where
  bios : Bool
  debug : Bool
  buildOnly : Bool
  release : Bool
deriving Repr, DecidableEq

/-- `BUILD_DIR` as computed inside `build_with_bios`
(`f'{root_dir}/target/x86_64-bios-target/{sub_dir}'`). -/
def build_with_bios_dir (r : String) (release : Bool) : String :=
  let sub_dir := if release then "release" else "debug"
  r ++ "/target/x86_64-bios-target/" ++ sub_dir

/-- `BUILD_DIR` as computed inside `run_with_bios` (same formula as in
`build_with_bios`). -/
def run_with_bios_dir (r : String) (release : Bool) : String :=
  let sub_dir := if release then "release" else "debug"
  r ++ "/target/x86_64-bios-target/" ++ sub_dir

/-- `BUILD_DIR` as computed inside `run_with_uefi`
(`f'{root_dir}/target/x86_64-unknown-uefi/{sub_dir}'`). -/
def run_with_uefi_dir (r : String) (release : Bool) : String :=
  let sub_dir := if release then "release" else "debug"
  r ++ "/target/x86_64-unknown-uefi/" ++ sub_dir

/-- `build_with_bios(base_cargo_args, release)`: runs cargo with the extra
`--features bios` arguments and the `RUSTFLAGS` linker override; on cargo
success runs `objcopy --only-keep-debug`, and on its success
`objcopy -O binary`.  Returns the invocation trace and the int the Python
function returns. -/
def build_with_bios (oc : Outcomes) (r : String) (base_cargo_args : List String)
    (release : Bool) : List Cmd × Int :=
  let BUILD_DIR := build_with_bios_dir r release
  let cargo := base_cargo_args ++ ["--features", "bios"]
  let cargo_env := some ("-C link-args=" ++ r ++ "/linker.ld")
  let objcopy_strip_debug : List String :=
    ["objcopy", "--only-keep-debug", BUILD_DIR ++ "/bootloader", BUILD_DIR ++ "/bmb_sym"]
  let objcopy_output_binary : List String :=
    ["objcopy", "-O", "binary", BUILD_DIR ++ "/bootloader", BUILD_DIR ++ "/bmb_bin"]
  let cargo_exit_code := oc.cargoExit
  if cargo_exit_code ≠ 0 then
    ([⟨cargo, cargo_env⟩], cargo_exit_code)
  else
    let objcopy_exit_code := oc.objcopyStripExit
    if objcopy_exit_code ≠ 0 then
      ([⟨cargo, cargo_env⟩, ⟨objcopy_strip_debug, none⟩], objcopy_exit_code)
    else
      ([⟨cargo, cargo_env⟩, ⟨objcopy_strip_debug, none⟩, ⟨objcopy_output_binary, none⟩],
        oc.objcopyBinExit)

/-- `run_with_bios(base_qemu_args, release)`: runs qemu with the raw
binary attached as a drive; the Python function returns `None`, so only
the trace is produced. -/
def run_with_bios (r : String) (base_qemu_args : List String)
    (release : Bool) : List Cmd :=
  let BUILD_DIR := run_with_bios_dir r release
  let qemu := base_qemu_args ++ ["-drive", "file=" ++ BUILD_DIR ++ "/bmb_bin,format=raw"]
  [⟨qemu, none⟩]

/-- `build_with_uefi(base_cargo_args)`: runs cargo unchanged (no extra
arguments, environment inherited) and returns its exit code. -/
def build_with_uefi (oc : Outcomes) (base_cargo_args : List String) : List Cmd × Int :=
  ([⟨base_cargo_args, none⟩], oc.cargoExit)

/-- `run_with_uefi(base_qemu_args, release)`: runs qemu with `-s`,
`-accel kvm`, the two pflash drives (`file=OVMF_CODE.fd` and
`file=OVMF_VARS.fd`, written exactly as in the source: bare relative
file names; the local `OVMF_ROOT = '/usr/share/edk2/ovmf'` of the source
is never used), the FAT drive on `BUILD_DIR`, and `-cpu qemu64`. -/
def run_with_uefi (r : String) (base_qemu_args : List String)
    (release : Bool) : List Cmd :=
  let BUILD_DIR := run_with_uefi_dir r release
  [⟨base_qemu_args ++
      ["-s",
       "-accel", "kvm",
       "-drive", "if=pflash,format=raw,unit=0,file=OVMF_CODE.fd,readonly=on",
       "-drive", "if=pflash,unit=1,format=raw,file=OVMF_VARS.fd",
       "-drive", "format=raw,file=fat:rw:" ++ BUILD_DIR,
       "-cpu", "qemu64"], none⟩]

/-- What one run of the script produces: the ordered list of external
process invocations, the build-stage return value `__main__` compares
against `0`, and the process exit status (the script falls off the end
without `sys.exit`, so a normal run exits 0). -/
structure RunOutput where
  trace : List Cmd
  buildResult : Int
  exitCode : Int
deriving Repr, DecidableEq

/-- The `args.bios` branch of `__main__`: build with BIOS, and when the
build returned 0 and `--build-only` is absent, launch qemu. -/
def bios_branch (oc : Outcomes) (r : String) (base_cargo_args base_qemu_args : List String)
    (cfg : Config) : RunOutput :=
  let b := build_with_bios oc r base_cargo_args cfg.release
  let launch := if b.2 = 0 ∧ cfg.buildOnly = false
    then run_with_bios r base_qemu_args cfg.release else []
  ⟨b.1 ++ launch, b.2, 0⟩

/-- The `else` branch of `__main__`: build with UEFI, and when the build
returned 0 and `--build-only` is absent, launch qemu. -/
def uefi_branch (oc : Outcomes) (r : String) (base_cargo_args base_qemu_args : List String)
    (cfg : Config) : RunOutput :=
  let b := build_with_uefi oc base_cargo_args
  let launch := if b.2 = 0 ∧ cfg.buildOnly = false
    then run_with_uefi r base_qemu_args cfg.release else []
  ⟨b.1 ++ launch, b.2, 0⟩

/-- The `__main__` block: computes `target` and the base cargo/qemu
argument lists, appends `--release` and `-S -s` for the respective flags,
then dispatches on `args.bios`. -/
def main_go (oc : Outcomes) (r : String) (cfg : Config) : RunOutput :=
  let target := if cfg.bios then r ++ "/x86_64-bios-target.json" else "x86_64-unknown-uefi"
  let base_cargo_args : List String :=
    ["cargo", "+nightly-2022-08-26", "b", "-p", "bootloader", "--target", target,
     "-Zbuild-std=core,compiler_builtins", "-Zbuild-std-features=compiler-builtins-mem"]
  let base_qemu_args : List String :=
    ["qemu-system-x86_64",
     "-device", "ich9-intel-hda,debug=4", "-device", "hda-micro", "-device", "hda-micro"]
  let base_cargo_args := if cfg.release then base_cargo_args ++ ["--release"] else base_cargo_args
  let base_qemu_args := if cfg.debug then base_qemu_args ++ ["-S", "-s"] else base_qemu_args
  if cfg.bios then bios_branch oc r base_cargo_args base_qemu_args cfg
  else uefi_branch oc r base_cargo_args base_qemu_args cfg

/-- The spec's `BuildDirectory` concept: a derived path, function of
`(variant, release)` over a fixed project root. -/
def BuildDirectory (r : String) (bios release : Bool) : String :=
  r ++ "/target/" ++ (if bios then "x86_64-bios-target" else "x86_64-unknown-uefi")
    ++ "/" ++ (if release then "release" else "debug")

/-- The commands of a trace that invoke the emulator. -/
def qemu_cmds (out : RunOutput) : List Cmd :=
  out.trace.filter (fun c => c.args.head? == some "qemu-system-x86_64")

/-- A trace invokes `objcopy` somewhere. -/
def invokes_objcopy (tr : List Cmd) : Bool :=
  tr.any (fun c => c.args.head? == some "objcopy")

/-- A trace invokes the emulator somewhere. -/
def invokes_qemu (tr : List Cmd) : Bool :=
  tr.any (fun c => c.args.head? == some "qemu-system-x86_64")

/-- The BIOS pipeline ran: the first invocation (the compile stage) passes
the `--features` flag, which only the BIOS cargo invocation carries. -/
def ran_bios_pipeline (out : RunOutput) : Prop :=
  ∃ c, out.trace.head? = some c ∧ "--features" ∈ c.args

/-- The UEFI pipeline ran: the first invocation (the compile stage) passes
the literal target `x86_64-unknown-uefi`, which only the UEFI cargo
invocation carries. -/
def ran_uefi_pipeline (out : RunOutput) : Prop :=
  ∃ c, out.trace.head? = some c ∧ "x86_64-unknown-uefi" ∈ c.args

/-! ### Helper lemmas -/

/-- A string with an arbitrary prefix and a long suffix cannot equal a
shorter literal. -/
theorem append_ne_of_length_lt (r s t : String) (h : t.length < s.length) :
    r ++ s ≠ t := by
  intro he
  have hl := congrArg String.length he
  rw [String.length_append] at hl
  omega

theorem main_go_exit_code (oc : Outcomes) (r : String) (cfg : Config) :
    (main_go oc r cfg).exitCode = 0 := by
  rcases cfg with ⟨bios, dbg, bo, rel⟩
  cases bios <;> simp [main_go, bios_branch, uefi_branch]

/-! ### Claim theorems -/

/-- C2: for every Config, when the compile stage exits non-zero, no
objcopy and no emulator invocation happens (the single external process
in the trace is the compiler), and the pipeline's result — the value
`__main__` tests against 0 — is the compiler's exit code. -/
theorem c2_compile_fail_stops_pipeline (oc : Outcomes) (r : String) (cfg : Config)
    (h : oc.cargoExit ≠ 0) :
    invokes_objcopy (main_go oc r cfg).trace = false ∧
    invokes_qemu (main_go oc r cfg).trace = false ∧
    (main_go oc r cfg).trace.length = 1 ∧
    (main_go oc r cfg).buildResult = oc.cargoExit := by
  rcases cfg with ⟨bios, dbg, bo, rel⟩
  cases bios <;> cases rel <;> cases dbg <;>
    simp [main_go, bios_branch, uefi_branch, build_with_bios, build_with_uefi,
      invokes_objcopy, invokes_qemu, run_with_bios, run_with_uefi, h]

theorem c2_witness :
    invokes_objcopy (main_go ⟨7, 0, 0, 0⟩ "/repo" ⟨false, false, false, false⟩).trace = false ∧
    invokes_qemu (main_go ⟨7, 0, 0, 0⟩ "/repo" ⟨false, false, false, false⟩).trace = false ∧
    (main_go ⟨7, 0, 0, 0⟩ "/repo" ⟨false, false, false, false⟩).trace.length = 1 ∧
    (main_go ⟨7, 0, 0, 0⟩ "/repo" ⟨false, false, false, false⟩).buildResult = 7 :=
  c2_compile_fail_stops_pipeline ⟨7, 0, 0, 0⟩ "/repo" ⟨false, false, false, false⟩ (by decide)

/-- C3: in `build_with_bios`, after a successful compile the
symbol-extraction objcopy runs first; if it exits non-zero the raw-image
objcopy is never invoked and the symbol-extraction exit code is the
stage's result; if it exits zero the raw-image objcopy follows it in the
trace and its exit code is the result. -/
theorem c3_extract_substep_order (oc : Outcomes) (r : String)
    (base_cargo_args : List String) (rel : Bool) (h0 : oc.cargoExit = 0) :
    (oc.objcopyStripExit ≠ 0 →
      (build_with_bios oc r base_cargo_args rel).1 =
        [⟨base_cargo_args ++ ["--features", "bios"],
            some ("-C link-args=" ++ r ++ "/linker.ld")⟩,
         ⟨["objcopy", "--only-keep-debug", build_with_bios_dir r rel ++ "/bootloader",
            build_with_bios_dir r rel ++ "/bmb_sym"], none⟩] ∧
      (build_with_bios oc r base_cargo_args rel).2 = oc.objcopyStripExit) ∧
    (oc.objcopyStripExit = 0 →
      (build_with_bios oc r base_cargo_args rel).1 =
        [⟨base_cargo_args ++ ["--features", "bios"],
            some ("-C link-args=" ++ r ++ "/linker.ld")⟩,
         ⟨["objcopy", "--only-keep-debug", build_with_bios_dir r rel ++ "/bootloader",
            build_with_bios_dir r rel ++ "/bmb_sym"], none⟩,
         ⟨["objcopy", "-O", "binary", build_with_bios_dir r rel ++ "/bootloader",
            build_with_bios_dir r rel ++ "/bmb_bin"], none⟩] ∧
      (build_with_bios oc r base_cargo_args rel).2 = oc.objcopyBinExit) := by
  constructor
  · intro h1
    simp [build_with_bios, h0, h1]
  · intro h1
    simp [build_with_bios, h0, h1]

theorem c3_witness :
    (5 : Int) ≠ 0 ∧
    (build_with_bios ⟨0, 5, 0, 0⟩ "/repo" ["cargo"] false).1 =
      [⟨["cargo", "--features", "bios"], some ("-C link-args=" ++ "/repo" ++ "/linker.ld")⟩,
       ⟨["objcopy", "--only-keep-debug", build_with_bios_dir "/repo" false ++ "/bootloader",
          build_with_bios_dir "/repo" false ++ "/bmb_sym"], none⟩] ∧
    (build_with_bios ⟨0, 5, 0, 0⟩ "/repo" ["cargo"] false).2 = 5 := by
  refine ⟨by decide, ?_⟩
  have h := (c3_extract_substep_order ⟨0, 5, 0, 0⟩ "/repo" ["cargo"] false (by decide)).1
    (by decide)
  simpa using h

/-- C4: with `--build-only` set, the emulator is never invoked, for both
variants and for every combination of stage exit codes. -/
theorem c4_build_only_never_launches (oc : Outcomes) (r : String) (cfg : Config)
    (h : cfg.buildOnly = true) :
    invokes_qemu (main_go oc r cfg).trace = false := by
  rcases cfg with ⟨bios, dbg, bo, rel⟩
  subst h
  by_cases h1 : oc.cargoExit = 0 <;> by_cases h2 : oc.objcopyStripExit = 0 <;>
    cases bios <;> cases rel <;> cases dbg <;>
      simp [main_go, bios_branch, uefi_branch, build_with_bios, build_with_uefi,
        invokes_qemu, h1, h2]

theorem c4_witness :
    invokes_qemu (main_go ⟨0, 0, 0, 0⟩ "/repo" ⟨false, false, true, false⟩).trace = false :=
  c4_build_only_never_launches ⟨0, 0, 0, 0⟩ "/repo" ⟨false, false, true, false⟩ rfl

/-- C1 (amended): the orchestrator's process exit code is 0 for every
Config and every combination of stage exit codes: the script tests stage
results against 0 only to gate later stages and ends without `sys.exit`,
so stage exit codes are never propagated to the process exit status. -/
theorem c1_process_exit_always_zero (oc : Outcomes) (r : String) (cfg : Config) :
    (main_go oc r cfg).exitCode = 0 :=
  main_go_exit_code oc r cfg

/-- C1 counterexample: with no flags (UEFI, debug profile) and the
compiler exiting 7, the first (and only) failing stage's exit code is 7,
yet the process exit code is 0, not 7. -/
theorem c1_counterexample :
    (main_go ⟨7, 0, 0, 0⟩ "/repo" ⟨false, false, false, false⟩).buildResult = 7 ∧
    (main_go ⟨7, 0, 0, 0⟩ "/repo" ⟨false, false, false, false⟩).exitCode = 0 ∧
    (main_go ⟨7, 0, 0, 0⟩ "/repo" ⟨false, false, false, false⟩).exitCode ≠ 7 :=
  ⟨rfl, rfl, by decide⟩

/-! String-literal lengths used in distinctness arguments. -/

theorem len_triple_bios : ("x86_64-bios-target" : String).length = 18 := rfl

theorem len_triple_uefi : ("x86_64-unknown-uefi" : String).length = 19 := rfl

theorem len_target_seg : ("/target/" : String).length = 8 := rfl

theorem len_slash : ("/" : String).length = 1 := rfl

theorem len_release : ("release" : String).length = 7 := rfl

theorem len_debug : ("debug" : String).length = 5 := rfl

theorem BuildDirectory_injective (r : String) :
    Function.Injective (fun p : Bool × Bool => BuildDirectory r p.1 p.2) := by
  rintro ⟨a, b⟩ ⟨c, d⟩ h
  simp only at h
  cases a <;> cases b <;> cases c <;> cases d <;> first
    | rfl
    | (exfalso
       have hl := congrArg String.length h
       simp only [BuildDirectory, if_true, if_false, String.length_append,
         len_triple_bios, len_triple_uefi, len_target_seg, len_slash,
         len_release, len_debug, Bool.false_eq_true, Bool.true_eq_false] at hl
       omega)

/-- C5: the build directory is a deterministic function of
`(variant, release)` only: the directory computed inside
`build_with_bios`, `run_with_bios` and `run_with_uefi` equals
`BuildDirectory` of the respective variant and the release flag; with
`release` true the directory is the `release` subdirectory of the
variant's target tree and with `release` false the `debug` one; and the
four `(variant, release)` combinations yield four distinct directories. -/
theorem c5_build_dir_deterministic (r : String) :
    (∀ rel, build_with_bios_dir r rel = BuildDirectory r true rel) ∧
    (∀ rel, run_with_bios_dir r rel = BuildDirectory r true rel) ∧
    (∀ rel, run_with_uefi_dir r rel = BuildDirectory r false rel) ∧
    (∀ b, BuildDirectory r b true =
      r ++ "/target/" ++ (if b then "x86_64-bios-target" else "x86_64-unknown-uefi")
        ++ "/release") ∧
    (∀ b, BuildDirectory r b false =
      r ++ "/target/" ++ (if b then "x86_64-bios-target" else "x86_64-unknown-uefi")
        ++ "/debug") ∧
    (Finset.univ.image (fun p : Bool × Bool => BuildDirectory r p.1 p.2)).card = 4 := by
  refine ⟨?_, ?_, ?_, ?_, ?_, ?_⟩
  · intro rel
    cases rel <;> simp [build_with_bios_dir, BuildDirectory, String.append_assoc]
  · intro rel
    cases rel <;> simp [run_with_bios_dir, BuildDirectory, String.append_assoc]
  · intro rel
    cases rel <;> simp [run_with_uefi_dir, BuildDirectory, String.append_assoc]
  · intro b
    cases b <;> simp [BuildDirectory, String.append_assoc]
  · intro b
    cases b <;> simp [BuildDirectory, String.append_assoc]
  · rw [Finset.card_image_of_injective _ (BuildDirectory_injective r)]
    simp

/-- C7: the first external invocation of every run is the compile
command; for the BIOS variant it carries the `--features bios` arguments
and the `RUSTFLAGS` linker override pointing at `linker.ld` under the
project root, while for the UEFI variant it carries no feature argument
and no environment override. -/
theorem c7_compile_invocation_shape (oc : Outcomes) (r : String) (cfg : Config) :
    (main_go oc r cfg).trace.head? = some
      ⟨(["cargo", "+nightly-2022-08-26", "b", "-p", "bootloader", "--target",
          if cfg.bios then r ++ "/x86_64-bios-target.json" else "x86_64-unknown-uefi",
          "-Zbuild-std=core,compiler_builtins", "-Zbuild-std-features=compiler-builtins-mem"]
        ++ (if cfg.release then ["--release"] else [])
        ++ (if cfg.bios then ["--features", "bios"] else [])),
       if cfg.bios then some ("-C link-args=" ++ r ++ "/linker.ld") else none⟩ := by
  rcases cfg with ⟨bios, dbg, bo, rel⟩
  by_cases h1 : oc.cargoExit = 0 <;> by_cases h2 : oc.objcopyStripExit = 0 <;>
    cases bios <;> cases rel <;> cases dbg <;> cases bo <;>
      simp [main_go, bios_branch, uefi_branch, build_with_bios, build_with_uefi, h1, h2]

/-- C6: exactly one of the two pipelines executes per invocation: the
compile invocation that heads the trace is the BIOS one exactly when the
BIOS flag is set, and the UEFI one exactly when it is absent; the two are
never both present and never both absent. -/
theorem c6_exactly_one_pipeline (oc : Outcomes) (r : String) (cfg : Config) :
    (ran_bios_pipeline (main_go oc r cfg) ↔ cfg.bios = true) ∧
    (ran_uefi_pipeline (main_go oc r cfg) ↔ cfg.bios = false) ∧
    ¬(ran_bios_pipeline (main_go oc r cfg) ∧ ran_uefi_pipeline (main_go oc r cfg)) ∧
    (ran_bios_pipeline (main_go oc r cfg) ∨ ran_uefi_pipeline (main_go oc r cfg)) := by
  have hr : r ++ "/x86_64-bios-target.json" ≠ "x86_64-unknown-uefi" :=
    append_ne_of_length_lt r "/x86_64-bios-target.json" "x86_64-unknown-uefi" (by decide)
  rcases cfg with ⟨bios, dbg, bo, rel⟩
  by_cases h1 : oc.cargoExit = 0 <;> by_cases h2 : oc.objcopyStripExit = 0 <;>
    cases bios <;> cases rel <;> cases dbg <;> cases bo <;>
      simp [main_go, bios_branch, uefi_branch, build_with_bios, build_with_uefi,
        ran_bios_pipeline, ran_uefi_pipeline, h1, h2, hr, Ne.symm hr]

/-- C8 counterexample: with no flags and a successful compile, the full
argument lists of the run are as below: the pflash drive arguments carry
the bare relative file names `OVMF_CODE.fd` / `OVMF_VARS.fd`, not files
under the fixed OVMF path `/usr/share/edk2/ovmf`, and no
networking-configuration flag (`-nic`, `-net`, `-netdev`) appears, so
networking is not disabled. -/
theorem c8_counterexample :
    (main_go ⟨0, 0, 0, 0⟩ "/repo" ⟨false, false, false, false⟩).trace.map Cmd.args =
      [["cargo", "+nightly-2022-08-26", "b", "-p", "bootloader", "--target",
        "x86_64-unknown-uefi", "-Zbuild-std=core,compiler_builtins",
        "-Zbuild-std-features=compiler-builtins-mem"],
       ["qemu-system-x86_64", "-device", "ich9-intel-hda,debug=4", "-device", "hda-micro",
        "-device", "hda-micro", "-s", "-accel", "kvm",
        "-drive", "if=pflash,format=raw,unit=0,file=OVMF_CODE.fd,readonly=on",
        "-drive", "if=pflash,unit=1,format=raw,file=OVMF_VARS.fd",
        "-drive", "format=raw,file=fat:rw:/repo/target/x86_64-unknown-uefi/debug",
        "-cpu", "qemu64"]] ∧
    ((main_go ⟨0, 0, 0, 0⟩ "/repo" ⟨false, false, false, false⟩).trace.map Cmd.args).all
      (fun l =>
        !(l.contains "if=pflash,format=raw,unit=0,file=/usr/share/edk2/ovmf/OVMF_CODE.fd,readonly=on"
          || l.contains "if=pflash,unit=1,format=raw,file=/usr/share/edk2/ovmf/OVMF_VARS.fd"
          || l.contains "-nic" || l.contains "-net" || l.contains "-netdev")) = true := by
  constructor
  · rfl
  · rfl

/-- C8 (amended): for the UEFI variant, when the compile succeeds and
`--build-only` is absent, the emulator is invoked with exactly the
arguments below: two pflash firmware drives — a read-only code image and
a writable variable-store image — given by the bare relative file names
`OVMF_CODE.fd` and `OVMF_VARS.fd` (the fixed OVMF install path declared
in the source is unused), a third drive exposing the build directory as a
FAT filesystem, and the generic CPU model `qemu64`; no
networking-configuration flag is passed. -/
theorem c8_uefi_launch_args (oc : Outcomes) (r : String) (cfg : Config)
    (hv : cfg.bios = false) (hb : cfg.buildOnly = false) (hc : oc.cargoExit = 0) :
    (main_go oc r cfg).trace =
      [⟨["cargo", "+nightly-2022-08-26", "b", "-p", "bootloader", "--target",
          "x86_64-unknown-uefi", "-Zbuild-std=core,compiler_builtins",
          "-Zbuild-std-features=compiler-builtins-mem"]
          ++ (if cfg.release then ["--release"] else []), none⟩,
       ⟨(["qemu-system-x86_64", "-device", "ich9-intel-hda,debug=4", "-device", "hda-micro",
          "-device", "hda-micro"]
          ++ (if cfg.debug then ["-S", "-s"] else []))
          ++ ["-s", "-accel", "kvm",
              "-drive", "if=pflash,format=raw,unit=0,file=OVMF_CODE.fd,readonly=on",
              "-drive", "if=pflash,unit=1,format=raw,file=OVMF_VARS.fd",
              "-drive", "format=raw,file=fat:rw:" ++ run_with_uefi_dir r cfg.release,
              "-cpu", "qemu64"], none⟩] := by
  rcases cfg with ⟨bios, dbg, bo, rel⟩
  cases hv
  cases hb
  cases dbg <;> cases rel <;>
    simp [main_go, uefi_branch, build_with_uefi, run_with_uefi, hc]

theorem c8_witness :
    (⟨false, true, false, true⟩ : Config).bios = false ∧
    (main_go ⟨0, 0, 0, 0⟩ "/repo" ⟨false, true, false, true⟩).trace =
      [⟨["cargo", "+nightly-2022-08-26", "b", "-p", "bootloader", "--target",
          "x86_64-unknown-uefi", "-Zbuild-std=core,compiler_builtins",
          "-Zbuild-std-features=compiler-builtins-mem"]
          ++ (if (⟨false, true, false, true⟩ : Config).release then ["--release"] else []),
          none⟩,
       ⟨(["qemu-system-x86_64", "-device", "ich9-intel-hda,debug=4", "-device", "hda-micro",
          "-device", "hda-micro"]
          ++ (if (⟨false, true, false, true⟩ : Config).debug then ["-S", "-s"] else []))
          ++ ["-s", "-accel", "kvm",
              "-drive", "if=pflash,format=raw,unit=0,file=OVMF_CODE.fd,readonly=on",
              "-drive", "if=pflash,unit=1,format=raw,file=OVMF_VARS.fd",
              "-drive", "format=raw,file=fat:rw:"
                ++ run_with_uefi_dir "/repo" (⟨false, true, false, true⟩ : Config).release,
              "-cpu", "qemu64"], none⟩] :=
  ⟨rfl, c8_uefi_launch_args ⟨0, 0, 0, 0⟩ "/repo" ⟨false, true, false, true⟩ rfl rfl rfl⟩

/-- A string with a long literal head and an arbitrary tail cannot equal
a shorter literal. -/
theorem append_ne_of_length_lt_left (s r t : String) (h : t.length < s.length) :
    s ++ r ≠ t := by
  intro he
  have hl := congrArg String.length he
  rw [String.length_append] at hl
  omega

/-- C9 counterexample: with the UEFI variant and `--debug` absent
(`debug = false`), the emulator argument list still contains the remote
debug-stub flag `-s`. -/
theorem c9_counterexample :
    (⟨false, false, false, false⟩ : Config).debug = false ∧
    ((main_go ⟨0, 0, 0, 0⟩ "/repo" ⟨false, false, false, false⟩).trace.any
      (fun c => c.args.contains "-s")) = true :=
  ⟨rfl, rfl⟩

set_option maxHeartbeats 1600000 in
/-- Any command of a run's trace that invokes the emulator has exactly
the argument list of the selected variant's launch function: the base
qemu/audio-device arguments, then `-S -s` when `debug` is set, then the
variant-specific drive/firmware arguments. -/
theorem qemu_cmd_args_shape (oc : Outcomes) (r : String) (cfg : Config) (c : Cmd)
    (hc : c ∈ qemu_cmds (main_go oc r cfg)) :
    c.args = (["qemu-system-x86_64", "-device", "ich9-intel-hda,debug=4", "-device",
        "hda-micro", "-device", "hda-micro"]
      ++ (if cfg.debug then ["-S", "-s"] else []))
      ++ (if cfg.bios then
            ["-drive", "file=" ++ run_with_bios_dir r cfg.release ++ "/bmb_bin,format=raw"]
          else
            ["-s", "-accel", "kvm",
             "-drive", "if=pflash,format=raw,unit=0,file=OVMF_CODE.fd,readonly=on",
             "-drive", "if=pflash,unit=1,format=raw,file=OVMF_VARS.fd",
             "-drive", "format=raw,file=fat:rw:" ++ run_with_uefi_dir r cfg.release,
             "-cpu", "qemu64"]) := by
  rcases cfg with ⟨bios, dbg, bo, rel⟩
  by_cases h1 : oc.cargoExit = 0 <;> by_cases h2 : oc.objcopyStripExit = 0 <;>
    by_cases h3 : oc.objcopyBinExit = 0 <;>
    cases bios <;> cases rel <;> cases dbg <;> cases bo <;>
      · simp [main_go, bios_branch, uefi_branch, build_with_bios, build_with_uefi,
          run_with_bios, run_with_uefi, qemu_cmds, h1, h2, h3] at hc
        try obtain ⟨rfl, -⟩ := hc
        try subst hc
        try rfl

/-- C9 (amended): in every emulator invocation the pause-at-reset flag
`-S` appears iff `debug` is set; the debug-stub flag `-s` appears iff
`debug` is set for the BIOS variant, but for the UEFI variant `-s` is
always present — twice when `debug` is set, once otherwise — so the
remote debug stub is exposed even with `debug` false. -/
theorem c9_debug_flags (oc : Outcomes) (r : String) (cfg : Config) (c : Cmd)
    (hc : c ∈ qemu_cmds (main_go oc r cfg)) :
    (("-S" ∈ c.args) ↔ cfg.debug = true) ∧
    (cfg.bios = true → (("-s" ∈ c.args) ↔ cfg.debug = true)) ∧
    (cfg.bios = false →
      ("-s" ∈ c.args ∧ c.args.count "-s" = (if cfg.debug then 2 else 1))) := by
  have hshape := qemu_cmd_args_shape oc r cfg c hc
  have hS1 : "file=" ++ run_with_bios_dir r cfg.release ++ "/bmb_bin,format=raw" ≠ "-S" :=
    append_ne_of_length_lt ("file=" ++ run_with_bios_dir r cfg.release)
      "/bmb_bin,format=raw" "-S" (by decide)
  have hs1 : "file=" ++ run_with_bios_dir r cfg.release ++ "/bmb_bin,format=raw" ≠ "-s" :=
    append_ne_of_length_lt ("file=" ++ run_with_bios_dir r cfg.release)
      "/bmb_bin,format=raw" "-s" (by decide)
  have hS2 : "format=raw,file=fat:rw:" ++ run_with_uefi_dir r cfg.release ≠ "-S" :=
    append_ne_of_length_lt_left "format=raw,file=fat:rw:"
      (run_with_uefi_dir r cfg.release) "-S" (by decide)
  have hs2 : "format=raw,file=fat:rw:" ++ run_with_uefi_dir r cfg.release ≠ "-s" :=
    append_ne_of_length_lt_left "format=raw,file=fat:rw:"
      (run_with_uefi_dir r cfg.release) "-s" (by decide)
  rw [hshape]
  rcases cfg with ⟨bios, dbg, bo, rel⟩
  cases bios <;> cases dbg <;>
    simp [List.count_append, List.count_cons, hS1, hs1, hS2, hs2,
      Ne.symm hS1, Ne.symm hs1, Ne.symm hS2, Ne.symm hs2]

theorem c9_witness :
    (("-S" ∈ ["qemu-system-x86_64", "-device", "ich9-intel-hda,debug=4",
        "-device", "hda-micro", "-device", "hda-micro", "-S", "-s",
        "-s", "-accel", "kvm",
        "-drive", "if=pflash,format=raw,unit=0,file=OVMF_CODE.fd,readonly=on",
        "-drive", "if=pflash,unit=1,format=raw,file=OVMF_VARS.fd",
        "-drive", "format=raw,file=fat:rw:/repo/target/x86_64-unknown-uefi/debug",
        "-cpu", "qemu64"]) ↔ (⟨false, true, false, false⟩ : Config).debug = true) ∧
    ((⟨false, true, false, false⟩ : Config).bios = true →
      (("-s" ∈ ["qemu-system-x86_64", "-device", "ich9-intel-hda,debug=4",
        "-device", "hda-micro", "-device", "hda-micro", "-S", "-s",
        "-s", "-accel", "kvm",
        "-drive", "if=pflash,format=raw,unit=0,file=OVMF_CODE.fd,readonly=on",
        "-drive", "if=pflash,unit=1,format=raw,file=OVMF_VARS.fd",
        "-drive", "format=raw,file=fat:rw:/repo/target/x86_64-unknown-uefi/debug",
        "-cpu", "qemu64"]) ↔ (⟨false, true, false, false⟩ : Config).debug = true)) ∧
    ((⟨false, true, false, false⟩ : Config).bios = false →
      ("-s" ∈ ["qemu-system-x86_64", "-device", "ich9-intel-hda,debug=4",
        "-device", "hda-micro", "-device", "hda-micro", "-S", "-s",
        "-s", "-accel", "kvm",
        "-drive", "if=pflash,format=raw,unit=0,file=OVMF_CODE.fd,readonly=on",
        "-drive", "if=pflash,unit=1,format=raw,file=OVMF_VARS.fd",
        "-drive", "format=raw,file=fat:rw:/repo/target/x86_64-unknown-uefi/debug",
        "-cpu", "qemu64"] ∧
       (["qemu-system-x86_64", "-device", "ich9-intel-hda,debug=4",
        "-device", "hda-micro", "-device", "hda-micro", "-S", "-s",
        "-s", "-accel", "kvm",
        "-drive", "if=pflash,format=raw,unit=0,file=OVMF_CODE.fd,readonly=on",
        "-drive", "if=pflash,unit=1,format=raw,file=OVMF_VARS.fd",
        "-drive", "format=raw,file=fat:rw:/repo/target/x86_64-unknown-uefi/debug",
        "-cpu", "qemu64"] : List String).count "-s" =
          (if (⟨false, true, false, false⟩ : Config).debug then 2 else 1))) :=
  c9_debug_flags ⟨0, 0, 0, 0⟩ "/repo" ⟨false, true, false, false⟩
    ⟨["qemu-system-x86_64", "-device", "ich9-intel-hda,debug=4",
      "-device", "hda-micro", "-device", "hda-micro", "-S", "-s",
      "-s", "-accel", "kvm",
      "-drive", "if=pflash,format=raw,unit=0,file=OVMF_CODE.fd,readonly=on",
      "-drive", "if=pflash,unit=1,format=raw,file=OVMF_VARS.fd",
      "-drive", "format=raw,file=fat:rw:/repo/target/x86_64-unknown-uefi/debug",
      "-cpu", "qemu64"], none⟩ (by decide)

/-- C10: every emulator invocation of the UEFI variant carries the remote
debug-stub flag `-s` and the adjacent pair `-accel kvm` regardless of the
debug flag, and carries `-s` twice exactly when the debug flag is set. -/
theorem c10_uefi_stub_and_accel (oc : Outcomes) (r : String) (cfg : Config) (c : Cmd)
    (hv : cfg.bios = false) (hc : c ∈ qemu_cmds (main_go oc r cfg)) :
    "-s" ∈ c.args ∧
    (∃ i, c.args[i]? = some "-accel" ∧ c.args[i + 1]? = some "kvm") ∧
    c.args.count "-s" = (if cfg.debug then 2 else 1) := by
  have hshape := qemu_cmd_args_shape oc r cfg c hc
  have hs2 : "format=raw,file=fat:rw:" ++ run_with_uefi_dir r cfg.release ≠ "-s" :=
    append_ne_of_length_lt_left "format=raw,file=fat:rw:"
      (run_with_uefi_dir r cfg.release) "-s" (by decide)
  rcases cfg with ⟨bios, dbg, bo, rel⟩
  cases hv
  rw [hshape]
  cases dbg
  · exact ⟨by simp, ⟨8, rfl, rfl⟩,
      by simp [List.count_append, List.count_cons, hs2, Ne.symm hs2]⟩
  · exact ⟨by simp, ⟨10, rfl, rfl⟩,
      by simp [List.count_append, List.count_cons, hs2, Ne.symm hs2]⟩

theorem c10_witness :
    "-s" ∈ (["qemu-system-x86_64", "-device", "ich9-intel-hda,debug=4",
      "-device", "hda-micro", "-device", "hda-micro",
      "-s", "-accel", "kvm",
      "-drive", "if=pflash,format=raw,unit=0,file=OVMF_CODE.fd,readonly=on",
      "-drive", "if=pflash,unit=1,format=raw,file=OVMF_VARS.fd",
      "-drive", "format=raw,file=fat:rw:/repo/target/x86_64-unknown-uefi/release",
      "-cpu", "qemu64"] : List String) ∧
    (∃ i, (["qemu-system-x86_64", "-device", "ich9-intel-hda,debug=4",
      "-device", "hda-micro", "-device", "hda-micro",
      "-s", "-accel", "kvm",
      "-drive", "if=pflash,format=raw,unit=0,file=OVMF_CODE.fd,readonly=on",
      "-drive", "if=pflash,unit=1,format=raw,file=OVMF_VARS.fd",
      "-drive", "format=raw,file=fat:rw:/repo/target/x86_64-unknown-uefi/release",
      "-cpu", "qemu64"] : List String)[i]? = some "-accel" ∧
      (["qemu-system-x86_64", "-device", "ich9-intel-hda,debug=4",
      "-device", "hda-micro", "-device", "hda-micro",
      "-s", "-accel", "kvm",
      "-drive", "if=pflash,format=raw,unit=0,file=OVMF_CODE.fd,readonly=on",
      "-drive", "if=pflash,unit=1,format=raw,file=OVMF_VARS.fd",
      "-drive", "format=raw,file=fat:rw:/repo/target/x86_64-unknown-uefi/release",
      "-cpu", "qemu64"] : List String)[i + 1]? = some "kvm") ∧
    (["qemu-system-x86_64", "-device", "ich9-intel-hda,debug=4",
      "-device", "hda-micro", "-device", "hda-micro",
      "-s", "-accel", "kvm",
      "-drive", "if=pflash,format=raw,unit=0,file=OVMF_CODE.fd,readonly=on",
      "-drive", "if=pflash,unit=1,format=raw,file=OVMF_VARS.fd",
      "-drive", "format=raw,file=fat:rw:/repo/target/x86_64-unknown-uefi/release",
      "-cpu", "qemu64"] : List String).count "-s" =
      (if (⟨false, false, false, true⟩ : Config).debug then 2 else 1) :=
  c10_uefi_stub_and_accel ⟨0, 0, 0, 0⟩ "/repo" ⟨false, false, false, true⟩
    ⟨["qemu-system-x86_64", "-device", "ich9-intel-hda,debug=4",
      "-device", "hda-micro", "-device", "hda-micro",
      "-s", "-accel", "kvm",
      "-drive", "if=pflash,format=raw,unit=0,file=OVMF_CODE.fd,readonly=on",
      "-drive", "if=pflash,unit=1,format=raw,file=OVMF_VARS.fd",
      "-drive", "format=raw,file=fat:rw:/repo/target/x86_64-unknown-uefi/release",
      "-cpu", "qemu64"], none⟩ rfl (by decide)
